import Mathlib

/-!
Verification development for the ao-sol energy dispatch core.

The Python source is embedded shallowly over exact rational arithmetic:

* `src/aosol/armazenamento/bateria.py` — legacy percentage-SOC battery with
  cycle counting (`bateria`, `carrega_bateria`, `descarrega_bateria`,
  `_acumula_ciclos_carregamento`).
* `src/aosol/analise/analise_energia.py` — dispatch loops
  (`analisa_upac_sem_armazenamento`, `analisa_upac_com_armazenamento`).
* `src/aosol/armazenamento/bomba_calor_aqs.py` — heat-pump controller
  (`BombaCalorAqs`, `ModoOperacaoBombaCalor`).
* `src/aosol/armazenamento/perfil_extraccao.py` — hot-water extraction
  profile (`PerfilExtraccao.extraccao_aqs_intervalo`).

Python floats are modelled as rationals; NumPy vectorised expressions become
per-row maps; the pandas dataframe becomes a list of rows.
-/

namespace AoSol

/-! Section: Legacy percentage-SOC battery (`bateria.py`) -/

/-- State of the legacy battery class `bateria` (bateria.py lines 3-24).
Fields are the instance attributes set in `__init__`; the Python attribute
`_acumulado_carregamento` is rendered without its leading underscore. -/
structure bateria where
  capacidade : ℚ
  soc : ℚ
  soc_min : ℚ
  soc_max : ℚ
  num_ciclos : ℤ
  acumulado_carregamento : ℚ
deriving DecidableEq, Repr

/-- Constructor `bateria.__init__(capacidade, soc_min, soc_max)`:
`soc = 0.0`, `num_ciclos = 0`, `_acumulado_carregamento = 0.0`. -/
def bateria.nova (capacidade soc_min soc_max : ℚ) : bateria :=
  { capacidade := capacidade
    soc := 0
    soc_min := soc_min
    soc_max := soc_max
    num_ciclos := 0
    acumulado_carregamento := 0 }

/-- Semantics of the calls `np.max(x, 0)` in bateria.py lines 80 and 127.
The second positional argument of `np.max` is `axis`, not a second operand;
NumPy accepts `axis=0` on the zero-dimensional array made from a Python float
and returns the value unchanged, so no clamping at zero takes place. -/
def np_max_axis0 (x : ℚ) : ℚ := x

/-- `bateria._acumula_ciclos_carregamento` (bateria.py lines 99-111). -/
def bateria.acumula_ciclos_carregamento (b : bateria) (energia_a_carregar : ℚ) : bateria :=
  let acumulado := b.acumulado_carregamento + energia_a_carregar
  if acumulado ≥ b.capacidade then
    { b with num_ciclos := b.num_ciclos + 1
             acumulado_carregamento := acumulado - b.capacidade }
  else
    { b with acumulado_carregamento := acumulado }

/-- `bateria.carrega_bateria` (bateria.py lines 66-97): returns the updated
battery and the Python return value `energia_carregada`. -/
def bateria.carrega_bateria (b : bateria) (energia_a_carregar : ℚ) : bateria × ℚ :=
  let soc_possivel := np_max_axis0 (b.soc_max - b.soc)
  let energia_possivel := (soc_possivel / 100) * b.capacidade
  if energia_a_carregar > energia_possivel then
    let b' := { b with soc := b.soc_max }
    (b'.acumula_ciclos_carregamento energia_possivel, energia_possivel)
  else
    let energia_actual := (b.soc / 100) * b.capacidade
    let energia_carregada := energia_actual + energia_a_carregar
    let b' := { b with soc := (energia_carregada / b.capacidade) * 100 }
    (b'.acumula_ciclos_carregamento energia_a_carregar, energia_a_carregar)

/-- `bateria.descarrega_bateria` (bateria.py lines 113-140): returns the
updated battery and the Python return value `energia_descarregada`. -/
def bateria.descarrega_bateria (b : bateria) (energia_a_descarregar : ℚ) : bateria × ℚ :=
  let soc_possivel := np_max_axis0 (b.soc - b.soc_min)
  let energia_possivel := (soc_possivel / 100) * b.capacidade
  if energia_a_descarregar > energia_possivel then
    ({ b with soc := b.soc_min }, energia_possivel)
  else
    let energia_actual := (b.soc / 100) * b.capacidade
    let energia_descarregada := energia_actual - energia_a_descarregar
    ({ b with soc := (energia_descarregada / b.capacidade) * 100 }, energia_a_descarregar)

/-! Section: Continuous battery model (spec §4.1)

The dispatch loop `analisa_upac_com_armazenamento` calls
`bateria.calcula_energia_maximiza_autoconsumo` and reads
`bateria.profundidade_descarga`, but the battery class in `bateria.py`
defines neither; the continuous model exists only in the spec and in the
expectations of `analise_energia_test.py`. -/

/-- Modelled from the spec: the continuous battery configuration of §3
(`BatteryConfig`), missing from `bateria.py`. `profundidade_descarga` is the
derived `depth_of_discharge_kWh = (soc_max - soc_min) * capacity`,
`eficiencia` the round-trip efficiency applied on discharge, and
`pot_maxima` the cap on instantaneous charge/discharge power. -/
structure BateriaContinua where
  profundidade_descarga : ℚ
  eficiencia : ℚ
  pot_maxima : ℚ
deriving DecidableEq, Repr

/-- Modelled from the spec: `calcula_energia_maximiza_autoconsumo`, the
continuous battery dispatch operation of §4.1, missing from `bateria.py`.
Returns `(new_soc, charge_power, discharge_power)` following the spec's
formulas verbatim. -/
def BateriaContinua.calcula_energia_maximiza_autoconsumo (b : BateriaContinua)
    (soc_anterior demanda_dc intervalo : ℚ) : ℚ × ℚ × ℚ :=
  let pot_max_descarga := min b.pot_maxima (soc_anterior * b.eficiencia / intervalo)
  let pot_max_carga := min b.pot_maxima ((b.profundidade_descarga - soc_anterior) / intervalo)
  let pot_descarga := min pot_max_descarga (max 0 demanda_dc)
  let pot_carga := min pot_max_carga (max 0 (-demanda_dc))
  let soc := soc_anterior + pot_carga * intervalo - (pot_descarga / b.eficiencia) * intervalo
  (soc, pot_carga, pot_descarga)

/-! Section: Dispatch loops (`analise_energia.py`) -/

/-- One input row of the energy dataframe: columns `consumo` and
`autoproducao`, both in kWh. -/
structure Row where
  consumo : ℚ
  autoproducao : ℚ
deriving DecidableEq, Repr

/-- Output row of `analisa_upac_sem_armazenamento`: the input columns plus
`consumo_rede`, `injeccao_rede` and `autoconsumo`. -/
structure SaidaSemArm where
  consumo : ℚ
  autoproducao : ℚ
  consumo_rede : ℚ
  injeccao_rede : ℚ
  autoconsumo : ℚ
deriving DecidableEq, Repr

/-- `analisa_upac_sem_armazenamento` (analise_energia.py lines 110-149).
The NumPy vectorised expressions act row-wise, so the embedding maps the
per-row computation over the list of rows. -/
def analisa_upac_sem_armazenamento (rows : List Row)
    (eficiencia_inversor intervalo : ℚ) : List SaidaSemArm :=
  rows.map fun r =>
    let pv := r.autoproducao / intervalo
    let carga := r.consumo / intervalo
    let energia_bidireccional_rede := (carga - pv * eficiencia_inversor) * intervalo
    let consumo_rede := max 0 energia_bidireccional_rede
    { consumo := r.consumo
      autoproducao := r.autoproducao
      consumo_rede := consumo_rede
      injeccao_rede := max 0 (-energia_bidireccional_rede)
      autoconsumo := r.consumo - consumo_rede }

/-- Output row of `analisa_upac_com_armazenamento`: the input columns plus
the five series assigned at analise_energia.py lines 218-223. -/
structure SaidaComArm where
  consumo : ℚ
  autoproducao : ℚ
  consumo_rede : ℚ
  injeccao_rede : ℚ
  autoconsumo : ℚ
  carga_bateria : ℚ
  descarga_bateria : ℚ
  soc : ℚ
deriving DecidableEq, Repr

/-- Body of the `for i in range(0, n)` loop of `analisa_upac_com_armazenamento`
(analise_energia.py lines 206-216) together with the column computations of
lines 218-223, carrying the previous state of charge down the list. Uses the
spec-modelled `BateriaContinua.calcula_energia_maximiza_autoconsumo`, since
the class in `bateria.py` does not define that method. -/
def despacho_com_armazenamento (b : BateriaContinua)
    (intervalo eficiencia_inversor : ℚ) : ℚ → List Row → List SaidaComArm
  | _, [] => []
  | soc_anterior, r :: rs =>
    let pv := r.autoproducao / intervalo
    let carga := r.consumo / intervalo
    let demanda_dc := carga / eficiencia_inversor - pv
    let passo := b.calcula_energia_maximiza_autoconsumo soc_anterior demanda_dc intervalo
    let soc_actual := passo.1
    let pot_carga := passo.2.1
    let pot_descarga := passo.2.2
    let energia_bidireccional_rede :=
      (carga - (pv + pot_descarga - pot_carga) * eficiencia_inversor) * intervalo
    let consumo_rede := max 0 energia_bidireccional_rede
    { consumo := r.consumo
      autoproducao := r.autoproducao
      consumo_rede := consumo_rede
      injeccao_rede := max 0 (-energia_bidireccional_rede)
      autoconsumo := r.consumo - consumo_rede
      carga_bateria := pot_carga * intervalo
      descarga_bateria := pot_descarga * intervalo
      soc := soc_actual } :: despacho_com_armazenamento b intervalo eficiencia_inversor soc_actual rs

/-- `analisa_upac_com_armazenamento` (analise_energia.py lines 151-225) with
the spec-modelled continuous battery: seeds `soc_0` with
`bateria.profundidade_descarga / 2` when the caller passes `None`
(line 202-203), then runs the dispatch loop. -/
def analisa_upac_com_armazenamento (b : BateriaContinua) (rows : List Row)
    (intervalo eficiencia_inversor : ℚ) (soc_0 : Option ℚ) : List SaidaComArm :=
  despacho_com_armazenamento b intervalo eficiencia_inversor
    (soc_0.getD (b.profundidade_descarga / 2)) rows

/-! Section: Attribute errors on the with-battery path (`analise_energia.py` with `bateria.py`)

`analisa_upac_com_armazenamento` accesses `bateria.profundidade_descarga`
(line 203) and `bateria.calcula_energia_maximiza_autoconsumo` (line 211) on
the battery object. The attribute set of an instance of the class `bateria`
of `bateria.py` is modelled as the list of its instance attributes (set in
`__init__`) and of the methods defined in the class body; Python raises
`AttributeError` when a looked-up name is not among them. -/

/-- Errors that the modelled Python fragments can raise. -/
inductive PyErro where
  | attributeError (nome : String) : PyErro
  | typeError : PyErro
deriving DecidableEq, Repr

/-- Attributes of an instance of class `bateria` (bateria.py lines 3-140):
the six instance attributes assigned in `__init__` and the seven methods of
the class body. -/
def bateria_atributos : List String :=
  ["capacidade", "soc", "soc_min", "soc_max", "num_ciclos", "_acumulado_carregamento",
   "get_soc", "get_soc_min", "get_soc_max", "get_ciclos_carregamento",
   "carrega_bateria", "_acumula_ciclos_carregamento", "descarrega_bateria"]

/-- Attribute lookup on an instance of class `bateria`. -/
def procura_atributo_bateria (nome : String) : Except PyErro Unit :=
  if nome ∈ bateria_atributos then Except.ok () else Except.error (PyErro.attributeError nome)

/-- The battery attribute accesses performed by the loop
`for i in range(0, n)` of analise_energia.py lines 206-216: every iteration
looks up `calcula_energia_maximiza_autoconsumo` on the battery object before
calling it. -/
def despacho_acessos_bateria : ℕ → Except PyErro Unit
  | 0 => Except.ok ()
  | n + 1 => do
    let _ ← procura_atributo_bateria ("calcula_energia_maximiza_autoconsumo")
    despacho_acessos_bateria n

/-- The battery attribute accesses performed by
`analisa_upac_com_armazenamento` (analise_energia.py lines 202-223) when the
battery argument is an instance of the class `bateria` of `bateria.py`:
line 203 reads `profundidade_descarga` when `soc_0 is None`, then the loop
runs once per row; the output columns are only assigned after the loop
(lines 218-223), so `Except.ok` marks reaching the column assignments. -/
def analisa_upac_com_armazenamento_acessos (n_rows : ℕ) (soc_0 : Option ℚ) :
    Except PyErro Unit := do
  match soc_0 with
  | none => let _ ← procura_atributo_bateria ("profundidade_descarga")
  | some _ => pure ()
  despacho_acessos_bateria n_rows

/-- Number of parameters of `bateria.__init__` besides `self`
(bateria.py line 7: `capacidade, soc_min, soc_max`). -/
def bateria_init_parametros : ℕ := 3

/-- Number of arguments passed to the `bateria(...)` constructor call inside
`estudo_upac_com_bateria` (analise_energia.py line 628: `cap_bat`,
`soc_min`, `soc_max`, `eficiencia_bateria`, `pot_maxima`). -/
def estudo_upac_com_bateria_argumentos : ℕ := 5

/-! Section: Heat pump (`bomba_calor_aqs.py`) -/

/-- Module-level constant `COEF_DEGRADACAO = 0.9` (bomba_calor_aqs.py line 209). -/
def COEF_DEGRADACAO : ℚ := 9 / 10

/-- Module-level constant `CPW_KW = 4181.0 / (3600 * 1000)` (bomba_calor_aqs.py line 206). -/
def CPW_KW : ℚ := 4181 / (3600 * 1000)

/-- `ModoOperacaoBombaCalor` (bomba_calor_aqs.py lines 213-227): operating
mode of the heat pump, with enum values `ECO = 0`, `AUT = 1`, `PV = 2`. -/
inductive ModoOperacaoBombaCalor where
  | ECO : ModoOperacaoBombaCalor
  | AUT : ModoOperacaoBombaCalor
  | PV : ModoOperacaoBombaCalor
deriving DecidableEq, Repr

/-- The integer enum value of each mode (bomba_calor_aqs.py lines 225-227). -/
def ModoOperacaoBombaCalor.value : ModoOperacaoBombaCalor → ℤ
  | .ECO => 0
  | .AUT => 1
  | .PV => 2

/-- `ModoOperacaoBombaCalor.__sub__` (bomba_calor_aqs.py lines 229-234):
subtraction of two modes returns the difference of their enum values. -/
def ModoOperacaoBombaCalor.sub (a b : ModoOperacaoBombaCalor) : ℤ :=
  a.value - b.value

/-- `ParametrosBombaCalor` (bomba_calor_aqs.py lines 236-265). -/
structure ParametrosBombaCalor where
  SP1 : ℚ
  SP2 : ℚ
  SP3 : ℚ
  SP5 : ℚ
  SP6 : ℚ
  r0 : ℚ
  r7 : ℚ
  usa_resist : Bool
deriving DecidableEq, Repr

/-- Default field values of the dataclass `ParametrosBombaCalor`
(bomba_calor_aqs.py lines 257-264). -/
def ParametrosBombaCalor.defeito : ParametrosBombaCalor :=
  { SP1 := 52, SP2 := 60, SP3 := 45, SP5 := 55, SP6 := 65,
    r0 := 5, r7 := 15, usa_resist := false }

/-- The heat-pump object `BombaCalorAqs` (bomba_calor_aqs.py lines 267-295):
the attributes set by its constructor. -/
structure BombaCalorAqs where
  pot_termica_bc : ℚ
  cop : ℚ
  pot_resist : ℚ
  params : ParametrosBombaCalor
  poder_calorifico_deposito : ℚ
  u_kw : ℚ
  bu : ℚ
deriving DecidableEq, Repr

/-- `BombaCalorAqs.__init__` (bomba_calor_aqs.py lines 271-295):
`poder_calorifico_deposito = RHO_W * vol * CPW_KW` with `RHO_W = 1000.0`,
and `u_kw = (1.023*vol + 1.293)/1000`. -/
def BombaCalorAqs.nova (pot_termica_bc cop pot_resist : ℚ)
    (params : ParametrosBombaCalor) (vol bu : ℚ) : BombaCalorAqs :=
  { pot_termica_bc := pot_termica_bc
    cop := cop
    pot_resist := pot_resist
    params := params
    poder_calorifico_deposito := 1000 * vol * CPW_KW
    u_kw := ((1023 / 1000) * vol + 1293 / 1000) / 1000
    bu := bu }

/-- `BombaCalorAqs._potencia_bomba_calor` (bomba_calor_aqs.py lines 297-334),
rendered without the leading underscore of the Python name. -/
def BombaCalorAqs.potencia_bomba_calor (bc : BombaCalorAqs)
    (deriv_t t_actual t_max_bc t_min_bc : ℚ)
    (modo_op modo_op_anterior : ModoOperacaoBombaCalor) : ℚ :=
  let bc_ligada_subida := deriv_t ≥ 0 ∧ t_actual < t_max_bc
  let bc_ligada_descida := deriv_t < 0 ∧ t_actual < t_min_bc
  let bc_ligada_mudanca_modo := modo_op.sub modo_op_anterior > 0
  if bc_ligada_subida ∨ bc_ligada_descida ∨ bc_ligada_mudanca_modo then
    bc.pot_termica_bc
  else 0

/-- `BombaCalorAqs._energia_resistencia` (bomba_calor_aqs.py lines 336-374),
rendered without the leading underscore of the Python name. The `else` branch
raising on an unknown mode is unreachable: the three modes are exhaustive. -/
def BombaCalorAqs.energia_resistencia (bc : BombaCalorAqs)
    (modo : ModoOperacaoBombaCalor) (deriv_t t_prox_dep t_max_s t_min_s : ℚ) : ℚ :=
  match modo with
  | .ECO =>
    let e_prox_dep := bc.poder_calorifico_deposito * (t_prox_dep - t_min_s)
    if bc.params.usa_resist ∧ e_prox_dep < 0 then
      min |e_prox_dep| bc.pot_resist
    else 0
  | .AUT | .PV =>
    let bu_ligada_subida := deriv_t > 0 ∧ t_prox_dep < t_max_s
    let bu_ligada_descida := deriv_t < 0 ∧ t_prox_dep < t_min_s
    if bu_ligada_subida ∨ bu_ligada_descida then
      min (bc.poder_calorifico_deposito * (t_max_s - t_prox_dep)) bc.pot_resist
    else 0

/-- The mode-dependent threshold derivation opening
`calcula_temperatura_deposito_intervalo` (bomba_calor_aqs.py lines 425-442):
returns `(t_max_s, t_max_bc, t_min_bc, t_min_s)`. -/
def definicao_temperaturas (params : ParametrosBombaCalor)
    (modo_op : ModoOperacaoBombaCalor) : ℚ × ℚ × ℚ × ℚ :=
  match modo_op with
  | .ECO =>
    let t_max_s := params.SP1
    let t_max_bc := min params.SP1 params.SP5
    let t_min_bc := t_max_bc - params.r0
    let t_min_s := if params.usa_resist then params.SP3 else t_min_bc
    (t_max_s, t_max_bc, t_min_bc, t_min_s)
  | .AUT =>
    let t_max_s := params.SP2
    let t_max_bc := min params.SP2 params.SP5
    let t_min_bc := t_max_bc - params.r0
    let t_min_s := min (params.SP2 - params.r7) t_min_bc
    (t_max_s, t_max_bc, t_min_bc, t_min_s)
  | .PV =>
    let t_max_s := params.SP6
    let t_max_bc := min params.SP6 params.SP5
    let t_min_bc := t_max_bc - params.r0
    let t_min_s := min (t_max_s - params.r7) t_min_bc
    (t_max_s, t_max_bc, t_min_bc, t_min_s)

/-- The compressor thermal energy `e_hp` computed by
`calcula_temperatura_deposito_intervalo` (bomba_calor_aqs.py lines 444-462). -/
def BombaCalorAqs.e_hp_intervalo (bc : BombaCalorAqs)
    (t_sala t_deposito_actual t_deposito_anterior e_extr_aqs : ℚ)
    (modo_op modo_op_anterior : ModoOperacaoBombaCalor) : ℚ :=
  let ts := definicao_temperaturas bc.params modo_op
  let t_max_s := ts.1
  let t_max_bc := ts.2.1
  let t_min_bc := ts.2.2.1
  let e_lost_s := bc.u_kw * (t_deposito_actual - t_sala)
  let deriv_t := t_deposito_actual - t_deposito_anterior
  let p_hp := bc.potencia_bomba_calor deriv_t t_deposito_actual t_max_bc t_min_bc
    modo_op modo_op_anterior
  let t_prox_dep := t_deposito_actual + (p_hp - e_lost_s - e_extr_aqs) / bc.poder_calorifico_deposito
  let e_hp_subida :=
    if t_prox_dep > t_max_s then
      e_lost_s + e_extr_aqs + bc.poder_calorifico_deposito * (t_max_bc - t_deposito_actual)
    else p_hp
  let e_hp_descida :=
    if t_prox_dep < t_min_bc then
      min (e_lost_s + e_extr_aqs + bc.poder_calorifico_deposito * (t_min_bc - t_prox_dep))
        bc.pot_termica_bc
    else 0
  max e_hp_subida e_hp_descida

/-- The capacity ratio `cr = min(e_hp / self.pot_termica_bc, 1.0)`
(bomba_calor_aqs.py line 474). -/
def BombaCalorAqs.cr_intervalo (bc : BombaCalorAqs) (e_hp : ℚ) : ℚ :=
  min (e_hp / bc.pot_termica_bc) 1

/-- The part-load COP correction `f_cop = cr / (1 - cc + cc*cr)` with the
local `cc = 0.9` (bomba_calor_aqs.py lines 475-476). -/
def BombaCalorAqs.f_cop_intervalo (bc : BombaCalorAqs) (e_hp : ℚ) : ℚ :=
  let cr := bc.cr_intervalo e_hp
  cr / (1 - 9 / 10 + (9 / 10) * cr)

/-- The electrical consumption `e_used_bc` of bomba_calor_aqs.py lines
477-479: `e_hp / (self.cop * f_cop)` when `f_cop > 0`, else `0`. -/
def BombaCalorAqs.e_used_bc_intervalo (bc : BombaCalorAqs) (e_hp : ℚ) : ℚ :=
  if bc.f_cop_intervalo e_hp > 0 then e_hp / (bc.cop * bc.f_cop_intervalo e_hp) else 0

/-- `BombaCalorAqs.calcula_temperatura_deposito_intervalo`
(bomba_calor_aqs.py lines 393-481): returns
`(t_deposito_prox, e_hp, e_bu, e_used_bc, e_lost_s)`. -/
def BombaCalorAqs.calcula_temperatura_deposito_intervalo (bc : BombaCalorAqs)
    (t_sala t_deposito_actual t_deposito_anterior e_extr_aqs : ℚ)
    (modo_op modo_op_anterior : ModoOperacaoBombaCalor) : ℚ × ℚ × ℚ × ℚ × ℚ :=
  let ts := definicao_temperaturas bc.params modo_op
  let t_max_s := ts.1
  let t_min_s := ts.2.2.2
  let e_lost_s := bc.u_kw * (t_deposito_actual - t_sala)
  let deriv_t := t_deposito_actual - t_deposito_anterior
  let e_hp := bc.e_hp_intervalo t_sala t_deposito_actual t_deposito_anterior e_extr_aqs
    modo_op modo_op_anterior
  let t_prox_dep := t_deposito_actual + (e_hp - e_lost_s - e_extr_aqs) / bc.poder_calorifico_deposito
  let e_bu := bc.energia_resistencia modo_op deriv_t t_prox_dep t_max_s t_min_s
  let t_deposito_prox :=
    t_deposito_actual + (e_hp + e_bu - e_lost_s - e_extr_aqs) / bc.poder_calorifico_deposito
  (t_deposito_prox, e_hp, e_bu, bc.e_used_bc_intervalo e_hp, e_lost_s)

/-! Section: Extraction profile (`perfil_extraccao.py`) -/

/-- `PerfilExtraccao` (perfil_extraccao.py lines 13-29): the loaded CSV table
for the chosen profile column, as pairs of a time of day (minutes after
midnight, the `Hora inicio` index) and the profile's draw value in kWh. -/
structure PerfilExtraccao where
  perfis : List (ℕ × ℚ)
deriving DecidableEq, Repr

/-- `PerfilExtraccao.extraccao_aqs_intervalo` (perfil_extraccao.py lines
31-50). Timestamps are absolute minutes; `.time()` becomes reduction modulo
1440, and `timedelta(hours=duracao)` adds `duracao * 60` minutes. The pandas
filter keeps the entries with `hora_1 <= index < hora_2` and sums them. -/
def PerfilExtraccao.extraccao_aqs_intervalo (p : PerfilExtraccao)
    (timestamp_inicio : ℕ) (duracao : ℕ) : ℚ :=
  let hora_1 := timestamp_inicio % 1440
  let hora_2 := (timestamp_inicio + duracao * 60) % 1440
  ((p.perfis.filter fun e => decide (hora_1 ≤ e.1) && decide (e.1 < hora_2)).map Prod.snd).sum

/-- Stated from the spec's words, for comparison with
`PerfilExtraccao.extraccao_aqs_intervalo`: the sum of the profile's draw
values whose time of day falls in the queried window
`[timestamp, timestamp + duracao hours)`, a window that may cross midnight. -/
def PerfilExtraccao.soma_janela (p : PerfilExtraccao)
    (timestamp_inicio : ℕ) (duracao : ℕ) : ℚ :=
  ((p.perfis.filter fun e =>
      decide ((e.1 + 1440 - timestamp_inicio % 1440) % 1440 < duracao * 60)).map Prod.snd).sum

/-! Section: Call sequences on the legacy battery -/

/-- A call on the legacy battery: `carrega_bateria(e)` or
`descarrega_bateria(e)`. -/
inductive OperacaoBateria where
  | carrega (energia : ℚ) : OperacaoBateria
  | descarrega (energia : ℚ) : OperacaoBateria
deriving DecidableEq, Repr

/-- A call requests a non-negative amount of energy. -/
def OperacaoBateria.nao_negativa : OperacaoBateria → Prop
  | .carrega energia => 0 ≤ energia
  | .descarrega energia => 0 ≤ energia

/-- Runs a sequence of charge/discharge calls on the legacy battery and
returns the final battery state together with the sum of the stored amounts
returned by the `carrega_bateria` calls. -/
def bateria.executa : bateria → List OperacaoBateria → bateria × ℚ
  | b, [] => (b, 0)
  | b, .carrega energia :: ops =>
    let passo := b.carrega_bateria energia
    let resto := passo.1.executa ops
    (resto.1, passo.2 + resto.2)
  | b, .descarrega energia :: ops =>
    (b.descarrega_bateria energia).1.executa ops

/-- The cycle-counting invariant of the legacy battery: the state of charge
stays in `[0, soc_max]`, the charge accumulator stays in `[0, capacidade)`,
and the accumulator equals the cumulative stored energy `soma` minus the
capacity already counted as full cycles. -/
def bateria.invariante_ciclos (b : bateria) (soma : ℚ) : Prop :=
  0 ≤ b.soc ∧ b.soc ≤ b.soc_max ∧
  0 ≤ b.acumulado_carregamento ∧ b.acumulado_carregamento < b.capacidade ∧
  b.acumulado_carregamento = soma - b.num_ciclos * b.capacidade

/-! Section: Theorems -/

/-- C1: the continuous battery operation
`calcula_energia_maximiza_autoconsumo(previous_soc, net_dc_demand_kW,
interval_hours)` returns `(new_soc, charge_power, discharge_power)` with
`discharge_power = min(min(max_power, previous_soc*efficiency/interval),
max(0, demand))`, `charge_power = min(min(max_power,
(depth_of_discharge - previous_soc)/interval), max(0, -demand))`,
`new_soc = previous_soc + charge_power*interval -
(discharge_power/efficiency)*interval`, and for every `previous_soc` in
`[0, depth_of_discharge]` the new state of charge again lies in
`[0, depth_of_discharge]`, with no error path. -/
theorem C1_calcula_energia_maximiza_autoconsumo_correcta
    (b : BateriaContinua) (soc_anterior demanda_dc intervalo : ℚ)
    (hint : 0 < intervalo) (hef : 0 < b.eficiencia) (hpm : 0 ≤ b.pot_maxima)
    (hsoc0 : 0 ≤ soc_anterior) (hsoc1 : soc_anterior ≤ b.profundidade_descarga) :
    (b.calcula_energia_maximiza_autoconsumo soc_anterior demanda_dc intervalo).2.2 =
      min (min b.pot_maxima (soc_anterior * b.eficiencia / intervalo)) (max 0 demanda_dc) ∧
    (b.calcula_energia_maximiza_autoconsumo soc_anterior demanda_dc intervalo).2.1 =
      min (min b.pot_maxima ((b.profundidade_descarga - soc_anterior) / intervalo))
        (max 0 (-demanda_dc)) ∧
    (b.calcula_energia_maximiza_autoconsumo soc_anterior demanda_dc intervalo).1 =
      soc_anterior +
        (b.calcula_energia_maximiza_autoconsumo soc_anterior demanda_dc intervalo).2.1 * intervalo -
        ((b.calcula_energia_maximiza_autoconsumo soc_anterior demanda_dc intervalo).2.2 /
          b.eficiencia) * intervalo ∧
    0 ≤ (b.calcula_energia_maximiza_autoconsumo soc_anterior demanda_dc intervalo).1 ∧
    (b.calcula_energia_maximiza_autoconsumo soc_anterior demanda_dc intervalo).1 ≤
      b.profundidade_descarga := by
  have hiv : intervalo ≠ 0 := hint.ne'
  have hev : b.eficiencia ≠ 0 := hef.ne'
  refine ⟨rfl, rfl, rfl, ?_, ?_⟩ <;>
    simp only [BateriaContinua.calcula_energia_maximiza_autoconsumo]
  · -- lower bound: the discharged energy never exceeds the stored energy
    have hpd_le : min (min b.pot_maxima (soc_anterior * b.eficiencia / intervalo))
        (max 0 demanda_dc) ≤ soc_anterior * b.eficiencia / intervalo :=
      le_trans (min_le_left _ _) (min_le_right _ _)
    have hpc_nonneg : 0 ≤ min (min b.pot_maxima
        ((b.profundidade_descarga - soc_anterior) / intervalo)) (max 0 (-demanda_dc)) :=
      le_min (le_min hpm (div_nonneg (by linarith) hint.le)) (le_max_left 0 _)
    have key : min (min b.pot_maxima (soc_anterior * b.eficiencia / intervalo))
        (max 0 demanda_dc) / b.eficiencia * intervalo ≤ soc_anterior := by
      have h1 : min (min b.pot_maxima (soc_anterior * b.eficiencia / intervalo))
          (max 0 demanda_dc) / b.eficiencia ≤
          soc_anterior * b.eficiencia / intervalo / b.eficiencia :=
        (div_le_div_iff_of_pos_right hef).mpr hpd_le
      have h2 : soc_anterior * b.eficiencia / intervalo / b.eficiencia =
          soc_anterior / intervalo := by
        field_simp
        ring
      rw [h2] at h1
      have h3 := mul_le_mul_of_nonneg_right h1 hint.le
      rwa [div_mul_cancel₀ _ hiv] at h3
    nlinarith [mul_nonneg hpc_nonneg hint.le]
  · -- upper bound: the charged energy never exceeds the free window
    have hpc_le : min (min b.pot_maxima ((b.profundidade_descarga - soc_anterior) / intervalo))
        (max 0 (-demanda_dc)) ≤ (b.profundidade_descarga - soc_anterior) / intervalo :=
      le_trans (min_le_left _ _) (min_le_right _ _)
    have hpd_nonneg : 0 ≤ min (min b.pot_maxima
        (soc_anterior * b.eficiencia / intervalo)) (max 0 demanda_dc) :=
      le_min (le_min hpm (div_nonneg (by positivity) hint.le)) (le_max_left 0 _)
    have key : min (min b.pot_maxima ((b.profundidade_descarga - soc_anterior) / intervalo))
        (max 0 (-demanda_dc)) * intervalo ≤ b.profundidade_descarga - soc_anterior := by
      have h3 := mul_le_mul_of_nonneg_right hpc_le hint.le
      rwa [div_mul_cancel₀ _ hiv] at h3
    have hdis : 0 ≤ min (min b.pot_maxima (soc_anterior * b.eficiencia / intervalo))
        (max 0 demanda_dc) / b.eficiencia * intervalo :=
      mul_nonneg (div_nonneg hpd_nonneg hef.le) hint.le
    linarith

/-- Witness for C1: a battery with depth of discharge 1 kWh, efficiency 1 and
power cap 1000 kW, previous state of charge 0.5, surplus demand -1 kW, one
hour interval. -/
theorem C1_calcula_energia_maximiza_autoconsumo_correcta_witness :
    ((⟨1, 1, 1000⟩ : BateriaContinua).calcula_energia_maximiza_autoconsumo (1/2) (-1) 1).2.2 =
      min (min (1000 : ℚ) ((1/2) * 1 / 1)) (max 0 (-1)) ∧
    ((⟨1, 1, 1000⟩ : BateriaContinua).calcula_energia_maximiza_autoconsumo (1/2) (-1) 1).2.1 =
      min (min (1000 : ℚ) ((1 - 1/2) / 1)) (max 0 (-(-1))) ∧
    ((⟨1, 1, 1000⟩ : BateriaContinua).calcula_energia_maximiza_autoconsumo (1/2) (-1) 1).1 =
      1/2 +
        ((⟨1, 1, 1000⟩ : BateriaContinua).calcula_energia_maximiza_autoconsumo (1/2) (-1) 1).2.1 * 1 -
        (((⟨1, 1, 1000⟩ : BateriaContinua).calcula_energia_maximiza_autoconsumo (1/2) (-1) 1).2.2 /
          1) * 1 ∧
    0 ≤ ((⟨1, 1, 1000⟩ : BateriaContinua).calcula_energia_maximiza_autoconsumo (1/2) (-1) 1).1 ∧
    ((⟨1, 1, 1000⟩ : BateriaContinua).calcula_energia_maximiza_autoconsumo (1/2) (-1) 1).1 ≤ 1 :=
  C1_calcula_energia_maximiza_autoconsumo_correcta ⟨1, 1, 1000⟩ (1/2) (-1) 1
    (by norm_num) (by norm_num) (by norm_num) (by norm_num) (by norm_num)

/-- C2: with at least one input row and a battery that is an instance of the
class `bateria` of bateria.py, `analisa_upac_com_armazenamento` raises
`AttributeError` before producing any output column: the class defines
neither `profundidade_descarga` nor `calcula_energia_maximiza_autoconsumo`,
and `estudo_upac_com_bateria` passes five constructor arguments while
`bateria.__init__` accepts three. -/
theorem C2_com_armazenamento_attribute_error (n_rows : ℕ) (soc_0 : Option ℚ)
    (h : 1 ≤ n_rows) :
    (∃ nome, analisa_upac_com_armazenamento_acessos n_rows soc_0 =
        Except.error (PyErro.attributeError nome) ∧ nome ∉ bateria_atributos) ∧
    "profundidade_descarga" ∉ bateria_atributos ∧
    "calcula_energia_maximiza_autoconsumo" ∉ bateria_atributos ∧
    estudo_upac_com_bateria_argumentos ≠ bateria_init_parametros := by
  refine ⟨?_, by decide, by decide, by decide⟩
  obtain ⟨m, rfl⟩ : ∃ m, n_rows = m + 1 := ⟨n_rows - 1, by omega⟩
  cases soc_0 with
  | none =>
    exact ⟨"profundidade_descarga", rfl, by decide⟩
  | some s =>
    exact ⟨"calcula_energia_maximiza_autoconsumo", rfl, by decide⟩

/-- Witness for C2: one row and an explicitly supplied initial state of
charge. -/
theorem C2_com_armazenamento_attribute_error_witness :
    (∃ nome, analisa_upac_com_armazenamento_acessos 1 (some 0) =
        Except.error (PyErro.attributeError nome) ∧ nome ∉ bateria_atributos) ∧
    "profundidade_descarga" ∉ bateria_atributos ∧
    "calcula_energia_maximiza_autoconsumo" ∉ bateria_atributos ∧
    estudo_upac_com_bateria_argumentos ≠ bateria_init_parametros :=
  C2_com_armazenamento_attribute_error 1 (some 0) (by norm_num)

/-- The integer rank of each operating mode in the ordering
`PV > AUT > ECO` stated by the spec. -/
def ModoOperacaoBombaCalor.ordem : ModoOperacaoBombaCalor → ℕ
  | .ECO => 0
  | .AUT => 1
  | .PV => 2

/-- C3: `_potencia_bomba_calor` returns the nominal thermal power exactly
when `(deriv_t >= 0 and t_actual < t_max_bc)` or
`(deriv_t < 0 and t_actual < t_min_bc)` or the current mode ranks strictly
above the previous mode in the ordering `PV > AUT > ECO`, and returns 0 in
every other case. -/
theorem C3_potencia_bomba_calor_condicao (bc : BombaCalorAqs)
    (deriv_t t_actual t_max_bc t_min_bc : ℚ)
    (modo_op modo_op_anterior : ModoOperacaoBombaCalor) :
    bc.potencia_bomba_calor deriv_t t_actual t_max_bc t_min_bc modo_op modo_op_anterior =
      if (deriv_t ≥ 0 ∧ t_actual < t_max_bc) ∨ (deriv_t < 0 ∧ t_actual < t_min_bc) ∨
          modo_op.ordem > modo_op_anterior.ordem
      then bc.pot_termica_bc else 0 := by
  have h : (modo_op.sub modo_op_anterior > 0) ↔ modo_op.ordem > modo_op_anterior.ordem := by
    cases modo_op <;> cases modo_op_anterior <;> decide
  simp only [BombaCalorAqs.potencia_bomba_calor, h]

/-- C4: under the setpoint-ordering constraints `r0 >= 0` and `SP3 <= SP1`,
the thresholds derived at the start of
`calcula_temperatura_deposito_intervalo` satisfy `t_min_bc <= t_max_bc` and
`t_min_s <= t_max_s` in every operating mode. -/
theorem C4_temperaturas_ordenadas (params : ParametrosBombaCalor)
    (modo_op : ModoOperacaoBombaCalor)
    (hr0 : 0 ≤ params.r0) (hsp : params.SP3 ≤ params.SP1) :
    (definicao_temperaturas params modo_op).2.2.1 ≤ (definicao_temperaturas params modo_op).2.1 ∧
    (definicao_temperaturas params modo_op).2.2.2 ≤ (definicao_temperaturas params modo_op).1 := by
  cases modo_op with
  | ECO =>
    refine ⟨sub_le_self _ hr0, ?_⟩
    show (if params.usa_resist then params.SP3 else min params.SP1 params.SP5 - params.r0) ≤
      params.SP1
    split
    · exact hsp
    · calc min params.SP1 params.SP5 - params.r0 ≤ min params.SP1 params.SP5 :=
          sub_le_self _ hr0
        _ ≤ params.SP1 := min_le_left _ _
  | AUT =>
    refine ⟨sub_le_self _ hr0, ?_⟩
    show min (params.SP2 - params.r7) (min params.SP2 params.SP5 - params.r0) ≤ params.SP2
    calc min (params.SP2 - params.r7) (min params.SP2 params.SP5 - params.r0) ≤
        min params.SP2 params.SP5 - params.r0 := min_le_right _ _
      _ ≤ min params.SP2 params.SP5 := sub_le_self _ hr0
      _ ≤ params.SP2 := min_le_left _ _
  | PV =>
    refine ⟨sub_le_self _ hr0, ?_⟩
    show min (params.SP6 - params.r7) (min params.SP6 params.SP5 - params.r0) ≤ params.SP6
    calc min (params.SP6 - params.r7) (min params.SP6 params.SP5 - params.r0) ≤
        min params.SP6 params.SP5 - params.r0 := min_le_right _ _
      _ ≤ min params.SP6 params.SP5 := sub_le_self _ hr0
      _ ≤ params.SP6 := min_le_left _ _

/-- Witness for C4: the dataclass default parameters in Economy mode. -/
theorem C4_temperaturas_ordenadas_witness :
    (definicao_temperaturas ParametrosBombaCalor.defeito ModoOperacaoBombaCalor.ECO).2.2.1 ≤
      (definicao_temperaturas ParametrosBombaCalor.defeito ModoOperacaoBombaCalor.ECO).2.1 ∧
    (definicao_temperaturas ParametrosBombaCalor.defeito ModoOperacaoBombaCalor.ECO).2.2.2 ≤
      (definicao_temperaturas ParametrosBombaCalor.defeito ModoOperacaoBombaCalor.ECO).1 :=
  C4_temperaturas_ordenadas ParametrosBombaCalor.defeito ModoOperacaoBombaCalor.ECO
    (by norm_num [ParametrosBombaCalor.defeito]) (by norm_num [ParametrosBombaCalor.defeito])

/-- In every mode the compressor cut-in threshold lies below the tank
setpoint: `t_min_bc <= t_max_s`, given `r0 >= 0`. -/
theorem t_min_bc_le_t_max_s (params : ParametrosBombaCalor)
    (modo_op : ModoOperacaoBombaCalor) (hr0 : 0 ≤ params.r0) :
    (definicao_temperaturas params modo_op).2.2.1 ≤ (definicao_temperaturas params modo_op).1 := by
  cases modo_op with
  | ECO =>
    show min params.SP1 params.SP5 - params.r0 ≤ params.SP1
    calc min params.SP1 params.SP5 - params.r0 ≤ min params.SP1 params.SP5 := sub_le_self _ hr0
      _ ≤ params.SP1 := min_le_left _ _
  | AUT =>
    show min params.SP2 params.SP5 - params.r0 ≤ params.SP2
    calc min params.SP2 params.SP5 - params.r0 ≤ min params.SP2 params.SP5 := sub_le_self _ hr0
      _ ≤ params.SP2 := min_le_left _ _
  | PV =>
    show min params.SP6 params.SP5 - params.r0 ≤ params.SP6
    calc min params.SP6 params.SP5 - params.r0 ≤ min params.SP6 params.SP5 := sub_le_self _ hr0
      _ ≤ params.SP6 := min_le_left _ _

/-- The compressor power is `pot_termica_bc` or `0`, hence non-negative for
a non-negative nominal power. -/
theorem potencia_bomba_calor_nonneg (bc : BombaCalorAqs)
    (deriv_t t_actual t_max_bc t_min_bc : ℚ)
    (modo_op modo_op_anterior : ModoOperacaoBombaCalor)
    (hP : 0 ≤ bc.pot_termica_bc) :
    0 ≤ bc.potencia_bomba_calor deriv_t t_actual t_max_bc t_min_bc modo_op modo_op_anterior := by
  simp only [BombaCalorAqs.potencia_bomba_calor]
  split
  · exact hP
  · exact le_refl 0

/-- Shape lemma for the `e_hp` computation: the maximum of the
rising-branch and falling-branch energies is non-negative whenever the
compressor power is non-negative and the cut-in threshold lies below the
tank setpoint, because the two override branches cannot fire together. -/
theorem max_subida_descida_nonneg (p_hp t_prox t_max_s t_min_bc a q : ℚ)
    (hp : 0 ≤ p_hp) (hmb : t_min_bc ≤ t_max_s) :
    0 ≤ max (if t_prox > t_max_s then a else p_hp) (if t_prox < t_min_bc then q else 0) := by
  by_cases hdes : t_prox < t_min_bc
  · have hnsub : ¬ (t_prox > t_max_s) := by
      push_neg
      linarith
    rw [if_neg hnsub]
    exact le_trans hp (le_max_left _ _)
  · rw [if_neg hdes]
    exact le_trans (le_refl 0) (le_max_right _ _)

/-- The compressor thermal energy `e_hp` of
`calcula_temperatura_deposito_intervalo` is non-negative for a non-negative
nominal power and `r0 >= 0`. -/
theorem e_hp_intervalo_nonneg (bc : BombaCalorAqs)
    (t_sala t_deposito_actual t_deposito_anterior e_extr_aqs : ℚ)
    (modo_op modo_op_anterior : ModoOperacaoBombaCalor)
    (hP : 0 ≤ bc.pot_termica_bc) (hr0 : 0 ≤ bc.params.r0) :
    0 ≤ bc.e_hp_intervalo t_sala t_deposito_actual t_deposito_anterior e_extr_aqs
      modo_op modo_op_anterior := by
  have hts := t_min_bc_le_t_max_s bc.params modo_op hr0
  have hp := potencia_bomba_calor_nonneg bc (t_deposito_actual - t_deposito_anterior)
    t_deposito_actual (definicao_temperaturas bc.params modo_op).2.1
    (definicao_temperaturas bc.params modo_op).2.2.1 modo_op modo_op_anterior hP
  exact max_subida_descida_nonneg _ _ _ _ _ _ hp hts

/-- C5: when the interval's compressor thermal energy `e_hp` is zero the
returned electrical consumption `e_used_bc` is zero, and under a valid
configuration (`pot_termica_bc > 0`, `r0 >= 0`, `cop > 0`) neither the
denominator of the part-load correction `f_cop = cr/(1 - 0.9 + 0.9*cr)` nor
the denominator of `e_used_bc = e_hp/(COP*f_cop)` is ever zero. -/
theorem C5_sem_divisao_por_zero (bc : BombaCalorAqs)
    (t_sala t_deposito_actual t_deposito_anterior e_extr_aqs : ℚ)
    (modo_op modo_op_anterior : ModoOperacaoBombaCalor)
    (hP : 0 < bc.pot_termica_bc) (hr0 : 0 ≤ bc.params.r0) (hcop : 0 < bc.cop) :
    (bc.e_hp_intervalo t_sala t_deposito_actual t_deposito_anterior e_extr_aqs
        modo_op modo_op_anterior = 0 →
      (bc.calcula_temperatura_deposito_intervalo t_sala t_deposito_actual t_deposito_anterior
        e_extr_aqs modo_op modo_op_anterior).2.2.2.1 = 0) ∧
    1 - 9 / 10 + (9 / 10) * bc.cr_intervalo (bc.e_hp_intervalo t_sala t_deposito_actual
      t_deposito_anterior e_extr_aqs modo_op modo_op_anterior) ≠ 0 ∧
    (bc.f_cop_intervalo (bc.e_hp_intervalo t_sala t_deposito_actual t_deposito_anterior
        e_extr_aqs modo_op modo_op_anterior) > 0 →
      bc.cop * bc.f_cop_intervalo (bc.e_hp_intervalo t_sala t_deposito_actual
        t_deposito_anterior e_extr_aqs modo_op modo_op_anterior) ≠ 0) := by
  refine ⟨?_, ?_, ?_⟩
  · intro h0
    show bc.e_used_bc_intervalo (bc.e_hp_intervalo t_sala t_deposito_actual t_deposito_anterior
      e_extr_aqs modo_op modo_op_anterior) = 0
    rw [h0]
    have hcr : bc.cr_intervalo 0 = 0 := by
      unfold BombaCalorAqs.cr_intervalo
      rw [zero_div]
      exact min_eq_left zero_le_one
    have hf : bc.f_cop_intervalo 0 = 0 := by
      unfold BombaCalorAqs.f_cop_intervalo
      rw [hcr, zero_div]
    unfold BombaCalorAqs.e_used_bc_intervalo
    rw [hf]
    norm_num
  · have he := e_hp_intervalo_nonneg bc t_sala t_deposito_actual t_deposito_anterior e_extr_aqs
      modo_op modo_op_anterior hP.le hr0
    have hcr : 0 ≤ bc.cr_intervalo (bc.e_hp_intervalo t_sala t_deposito_actual
        t_deposito_anterior e_extr_aqs modo_op modo_op_anterior) := by
      unfold BombaCalorAqs.cr_intervalo
      exact le_min (div_nonneg he hP.le) zero_le_one
    have : (0 : ℚ) < 1 - 9 / 10 + (9 / 10) * bc.cr_intervalo (bc.e_hp_intervalo t_sala
        t_deposito_actual t_deposito_anterior e_extr_aqs modo_op modo_op_anterior) := by
      nlinarith
    exact this.ne'
  · intro hf
    exact (mul_pos hcop hf).ne'

/-- Witness for C5: the heat pump of the spec's golden scenario 5 (1.55 kW,
COP 3.6, 152 l tank, default setpoints), tank and room at 14 degrees, no
extraction, Economy mode throughout. -/
theorem C5_sem_divisao_por_zero_witness :
    ((BombaCalorAqs.nova (31/20) (18/5) (3/2) ParametrosBombaCalor.defeito (19/125)
        (1/2)).e_hp_intervalo 14 14 14 0 ModoOperacaoBombaCalor.ECO ModoOperacaoBombaCalor.ECO = 0 →
      ((BombaCalorAqs.nova (31/20) (18/5) (3/2) ParametrosBombaCalor.defeito (19/125)
        (1/2)).calcula_temperatura_deposito_intervalo 14 14 14 0 ModoOperacaoBombaCalor.ECO
        ModoOperacaoBombaCalor.ECO).2.2.2.1 = 0) ∧
    1 - 9 / 10 + (9 / 10) * (BombaCalorAqs.nova (31/20) (18/5) (3/2) ParametrosBombaCalor.defeito
      (19/125) (1/2)).cr_intervalo ((BombaCalorAqs.nova (31/20) (18/5) (3/2)
      ParametrosBombaCalor.defeito (19/125) (1/2)).e_hp_intervalo 14 14 14 0
      ModoOperacaoBombaCalor.ECO ModoOperacaoBombaCalor.ECO) ≠ 0 ∧
    ((BombaCalorAqs.nova (31/20) (18/5) (3/2) ParametrosBombaCalor.defeito (19/125)
        (1/2)).f_cop_intervalo ((BombaCalorAqs.nova (31/20) (18/5) (3/2)
        ParametrosBombaCalor.defeito (19/125) (1/2)).e_hp_intervalo 14 14 14 0
        ModoOperacaoBombaCalor.ECO ModoOperacaoBombaCalor.ECO) > 0 →
      (BombaCalorAqs.nova (31/20) (18/5) (3/2) ParametrosBombaCalor.defeito (19/125)
        (1/2)).cop * (BombaCalorAqs.nova (31/20) (18/5) (3/2) ParametrosBombaCalor.defeito
        (19/125) (1/2)).f_cop_intervalo ((BombaCalorAqs.nova (31/20) (18/5) (3/2)
        ParametrosBombaCalor.defeito (19/125) (1/2)).e_hp_intervalo 14 14 14 0
        ModoOperacaoBombaCalor.ECO ModoOperacaoBombaCalor.ECO) ≠ 0) :=
  C5_sem_divisao_por_zero (BombaCalorAqs.nova (31/20) (18/5) (3/2) ParametrosBombaCalor.defeito
    (19/125) (1/2)) 14 14 14 0 ModoOperacaoBombaCalor.ECO ModoOperacaoBombaCalor.ECO
    (by norm_num [BombaCalorAqs.nova]) (by norm_num [BombaCalorAqs.nova, ParametrosBombaCalor.defeito])
    (by norm_num [BombaCalorAqs.nova])

/-- C6: for every input row, `analisa_upac_sem_armazenamento` computes
`consumo_rede = max(0, consumo - autoproducao*eficiencia_inversor)`,
`injeccao_rede = max(0, -(consumo - autoproducao*eficiencia_inversor))` and
`autoconsumo = consumo - consumo_rede`, exactly, in real arithmetic. -/
theorem C6_sem_armazenamento_formulas (rows : List Row)
    (eficiencia_inversor intervalo : ℚ) (hint : 0 < intervalo) :
    analisa_upac_sem_armazenamento rows eficiencia_inversor intervalo =
      rows.map (fun r =>
        { consumo := r.consumo
          autoproducao := r.autoproducao
          consumo_rede := max 0 (r.consumo - r.autoproducao * eficiencia_inversor)
          injeccao_rede := max 0 (-(r.consumo - r.autoproducao * eficiencia_inversor))
          autoconsumo := r.consumo -
            max 0 (r.consumo - r.autoproducao * eficiencia_inversor) }) := by
  unfold analisa_upac_sem_armazenamento
  apply List.map_congr_left
  intro r _
  have key : (r.consumo / intervalo - r.autoproducao / intervalo * eficiencia_inversor) *
      intervalo = r.consumo - r.autoproducao * eficiencia_inversor := by
    field_simp
  dsimp only
  rw [key]

/-- Witness for C6: a single row with consumption 2 kWh and production 1 kWh
at unit inverter efficiency and one hour interval. -/
theorem C6_sem_armazenamento_formulas_witness :
    analisa_upac_sem_armazenamento [⟨2, 1⟩] 1 1 =
      [⟨2, 1, max 0 (2 - 1 * 1), max 0 (-(2 - 1 * 1)), 2 - max 0 (2 - 1 * 1)⟩] :=
  C6_sem_armazenamento_formulas [⟨2, 1⟩] 1 1 (by norm_num)

/-- Per-row energy conservation of the dispatch loop: for any battery step
outputs `pot_carga`, `pot_descarga`, the row's bidirectional grid energy
splits so that `autoconsumo + consumo_rede = consumo` and
`autoconsumo + injeccao_rede + carga_bateria*ef = (autoproducao +
descarga_bateria)*ef`. -/
theorem conservacao_linha (c a t ef pc pd : ℚ) (ht : t ≠ 0) :
    (c - max 0 ((c / t - (a / t + pd - pc) * ef) * t)) +
      max 0 ((c / t - (a / t + pd - pc) * ef) * t) = c ∧
    (c - max 0 ((c / t - (a / t + pd - pc) * ef) * t)) +
      max 0 (-((c / t - (a / t + pd - pc) * ef) * t)) + (pc * t) * ef =
      (a + pd * t) * ef := by
  have h1 : c / t * t = c := div_mul_cancel₀ c ht
  have h2 : a / t * t = a := div_mul_cancel₀ a ht
  have hebr : (c / t - (a / t + pd - pc) * ef) * t =
      c - (a + pd * t - pc * t) * ef := by
    calc (c / t - (a / t + pd - pc) * ef) * t
        = c / t * t - (a / t * t + pd * t - pc * t) * ef := by ring
      _ = c - (a + pd * t - pc * t) * ef := by rw [h1, h2]
  rw [hebr]
  constructor
  · ring
  · rcases le_total 0 (c - (a + pd * t - pc * t) * ef) with h | h
    · rw [max_eq_right h, max_eq_left (by linarith)]
      ring
    · rw [max_eq_left h, max_eq_right (by linarith)]
      ring

/-- Per-row energy conservation of the no-battery analysis. -/
theorem conservacao_linha_sem (c a t ef : ℚ) (ht : t ≠ 0) :
    (c - max 0 ((c / t - a / t * ef) * t)) + max 0 ((c / t - a / t * ef) * t) = c ∧
    (c - max 0 ((c / t - a / t * ef) * t)) + max 0 (-((c / t - a / t * ef) * t)) = a * ef := by
  have h1 : c / t * t = c := div_mul_cancel₀ c ht
  have h2 : a / t * t = a := div_mul_cancel₀ a ht
  have hebr : (c / t - a / t * ef) * t = c - a * ef := by
    calc (c / t - a / t * ef) * t = c / t * t - a / t * t * ef := by ring
      _ = c - a * ef := by rw [h1, h2]
  rw [hebr]
  constructor
  · ring
  · rcases le_total 0 (c - a * ef) with h | h
    · rw [max_eq_right h, max_eq_left (by linarith)]
      ring
    · rw [max_eq_left h, max_eq_right (by linarith)]
      ring

/-- C7 (amended): every row produced by `analisa_upac_sem_armazenamento`
satisfies `autoconsumo + consumo_rede = consumo` and
`autoconsumo + injeccao_rede = autoproducao*inverter_eff`, and every row
produced by `analisa_upac_com_armazenamento` satisfies
`autoconsumo + consumo_rede = consumo` and
`autoconsumo + injeccao_rede + carga_bateria*inverter_eff =
(autoproducao + descarga_bateria)*inverter_eff` — the battery flows being
DC-side quantities, they enter the AC balance scaled by the inverter
efficiency. -/
theorem C7_conservacao_energia (b : BateriaContinua) (rows : List Row)
    (intervalo eficiencia_inversor : ℚ) (soc_0 : Option ℚ) (ht : intervalo ≠ 0) :
    (∀ o ∈ analisa_upac_sem_armazenamento rows eficiencia_inversor intervalo,
      o.autoconsumo + o.consumo_rede = o.consumo ∧
      o.autoconsumo + o.injeccao_rede = o.autoproducao * eficiencia_inversor) ∧
    (∀ o ∈ analisa_upac_com_armazenamento b rows intervalo eficiencia_inversor soc_0,
      o.autoconsumo + o.consumo_rede = o.consumo ∧
      o.autoconsumo + o.injeccao_rede + o.carga_bateria * eficiencia_inversor =
        (o.autoproducao + o.descarga_bateria) * eficiencia_inversor) := by
  constructor
  · intro o ho
    rw [analisa_upac_sem_armazenamento, List.mem_map] at ho
    obtain ⟨r, _, rfl⟩ := ho
    exact conservacao_linha_sem r.consumo r.autoproducao intervalo eficiencia_inversor ht
  · rw [analisa_upac_com_armazenamento]
    generalize (soc_0.getD (b.profundidade_descarga / 2)) = soc_ant
    induction rows generalizing soc_ant with
    | nil =>
      intro o ho
      simp [despacho_com_armazenamento] at ho
    | cons r rs ih =>
      intro o ho
      rw [despacho_com_armazenamento] at ho
      rcases List.mem_cons.mp ho with h | h
      · subst h
        exact conservacao_linha r.consumo r.autoproducao intervalo eficiencia_inversor _ _ ht
      · exact ih _ o h

/-- Witness for C7: the spec's golden scenario 1 battery (1 kWh usable
window, efficiency 1, mid-window seed), one row with consumption 1 kWh and
production 2 kWh. -/
theorem C7_conservacao_energia_witness :
    (∀ o ∈ analisa_upac_sem_armazenamento [⟨1, 2⟩] 1 1,
      o.autoconsumo + o.consumo_rede = o.consumo ∧
      o.autoconsumo + o.injeccao_rede = o.autoproducao * 1) ∧
    (∀ o ∈ analisa_upac_com_armazenamento ⟨1, 1, 1000⟩ [⟨1, 2⟩] 1 1 (some (1/2)),
      o.autoconsumo + o.consumo_rede = o.consumo ∧
      o.autoconsumo + o.injeccao_rede + o.carga_bateria * 1 =
        (o.autoproducao + o.descarga_bateria) * 1) :=
  C7_conservacao_energia ⟨1, 1, 1000⟩ [⟨1, 2⟩] 1 1 (some (1/2)) (by norm_num)

/-- C7 (counterexample): with inverter efficiency 0.9, battery efficiency
0.9 and initial state of charge 0.1 — the repository's own golden test case
of analise_energia_test.py line 32 — the produced row has
`autoconsumo + injeccao_rede + carga_bateria = 0.981` while
`autoproducao*inverter_eff + descarga_bateria = 0.99`, so the claimed
identity fails beyond any floating tolerance. -/
theorem C7_conservacao_energia_counterexample :
    analisa_upac_com_armazenamento ⟨1, 9/10, 1000⟩ [⟨1, 1⟩] 1 (9/10) (some (1/10)) =
      [⟨1, 1, 19/1000, 0, 981/1000, 0, 9/100, 0⟩] ∧
    ¬ ((981/1000 : ℚ) + 0 + 0 = 1 * (9/10) + 9/100) := by
  constructor
  · simp only [analisa_upac_com_armazenamento, Option.getD_some, despacho_com_armazenamento,
      BateriaContinua.calcula_energia_maximiza_autoconsumo]
    norm_num [SaidaComArm.mk.injEq]
  · norm_num

/-- C8: on a freshly constructed battery with `soc_min = 20`, a discharge
request of 0.1 kWh returns `-0.24` — a negative delivered amount outside
`[0, 0.1]` — and jumps the state of charge up to `soc_min`: the calls
`np.max(x, 0)` in `carrega_bateria`/`descarrega_bateria` pass `0` as NumPy's
`axis` argument instead of clamping at zero, so the intended truncation to
the feasible amount never happens. -/
theorem C8_descarrega_devolve_negativo :
    ((bateria.nova (6/5) 20 80).descarrega_bateria (1/10)).2 = -(6/25) ∧
    ((bateria.nova (6/5) 20 80).descarrega_bateria (1/10)).2 < 0 ∧
    ((bateria.nova (6/5) 20 80).descarrega_bateria (1/10)).1.soc = 20 := by
  refine ⟨?_, ?_, ?_⟩ <;>
    norm_num [bateria.nova, bateria.descarrega_bateria, np_max_axis0]

/-- C9 (counterexample): a single `carrega_bateria(-1)` call on a fresh
`bateria(1, 20, 80)` stores `-1` (the request is not clamped to
non-negative amounts), leaving `num_ciclos = 0` while
`floor(S/capacidade) = floor(-1/1) = -1`. -/
theorem C9_ciclos_carregamento_counterexample :
    ((bateria.nova 1 20 80).carrega_bateria (-1)).2 = -1 ∧
    ((bateria.nova 1 20 80).carrega_bateria (-1)).1.num_ciclos = 0 ∧
    Int.floor (((bateria.nova 1 20 80).carrega_bateria (-1)).2 /
      (bateria.nova 1 20 80).capacidade) = -1 := by
  refine ⟨?_, ?_, ?_⟩ <;>
    norm_num [bateria.nova, bateria.carrega_bateria, bateria.acumula_ciclos_carregamento,
      np_max_axis0]

/-- Stepping the cycle accumulator with a stored amount in `[0, capacidade]`
keeps the accumulator in `[0, capacidade)` and keeps it equal to the
cumulative stored energy minus the counted cycles. -/
theorem acumula_ciclos_carregamento_passo (b : bateria) (x soma : ℚ)
    (hx0 : 0 ≤ x) (hxc : x ≤ b.capacidade)
    (hac0 : 0 ≤ b.acumulado_carregamento) (hacc : b.acumulado_carregamento < b.capacidade)
    (hrel : b.acumulado_carregamento = soma - b.num_ciclos * b.capacidade) :
    0 ≤ (b.acumula_ciclos_carregamento x).acumulado_carregamento ∧
    (b.acumula_ciclos_carregamento x).acumulado_carregamento < b.capacidade ∧
    (b.acumula_ciclos_carregamento x).acumulado_carregamento =
      (soma + x) - (b.acumula_ciclos_carregamento x).num_ciclos * b.capacidade ∧
    (b.acumula_ciclos_carregamento x).capacidade = b.capacidade ∧
    (b.acumula_ciclos_carregamento x).soc = b.soc ∧
    (b.acumula_ciclos_carregamento x).soc_min = b.soc_min ∧
    (b.acumula_ciclos_carregamento x).soc_max = b.soc_max := by
  simp only [bateria.acumula_ciclos_carregamento]
  split
  case isTrue h =>
    dsimp only
    refine ⟨by linarith, by linarith, ?_, rfl, rfl, rfl, rfl⟩
    push_cast
    linarith
  case isFalse h =>
    have h' : b.acumulado_carregamento + x < b.capacidade := lt_of_not_ge h
    dsimp only
    refine ⟨by linarith, by linarith, ?_, rfl, rfl, rfl, rfl⟩
    linarith

/-- One `carrega_bateria` call preserves the cycle-counting invariant,
advancing the cumulative stored energy by the returned amount. -/
theorem carrega_bateria_passo (b : bateria) (e soma : ℚ)
    (hcap : 0 < b.capacidade) (hmax : b.soc_max ≤ 100)
    (he : 0 ≤ e) (hinv : b.invariante_ciclos soma) :
    (b.carrega_bateria e).1.invariante_ciclos (soma + (b.carrega_bateria e).2) ∧
    (b.carrega_bateria e).1.capacidade = b.capacidade ∧
    (b.carrega_bateria e).1.soc_min = b.soc_min ∧
    (b.carrega_bateria e).1.soc_max = b.soc_max := by
  obtain ⟨hs0, hs1, ha0, ha1, harel⟩ := hinv
  have hE0 : 0 ≤ (b.soc_max - b.soc) / 100 * b.capacidade := by
    have : 0 ≤ b.soc_max - b.soc := by linarith
    positivity
  have hEc : (b.soc_max - b.soc) / 100 * b.capacidade ≤ b.capacidade := by
    have h100 : b.soc_max - b.soc ≤ 100 := by linarith
    nlinarith
  simp only [bateria.carrega_bateria, np_max_axis0]
  split
  case isTrue h =>
    dsimp only
    obtain ⟨k0, k1, k2, k3, k4, k5, k6⟩ := acumula_ciclos_carregamento_passo
      { b with soc := b.soc_max } ((b.soc_max - b.soc) / 100 * b.capacidade) soma
      hE0 hEc ha0 ha1 harel
    refine ⟨⟨?_, ?_, k0, ?_, ?_⟩, k3, k5, k6⟩
    · rw [k4]
      show (0 : ℚ) ≤ b.soc_max
      linarith
    · rw [k4, k6]
    · rw [k3]
      exact k1
    · rw [k3]
      exact k2
  case isFalse h =>
    have hle : e ≤ (b.soc_max - b.soc) / 100 * b.capacidade := by linarith
    have hec : e ≤ b.capacidade := le_trans hle hEc
    have hsoc' : (b.soc / 100 * b.capacidade + e) / b.capacidade * 100 =
        b.soc + 100 * e / b.capacidade := by
      field_simp
      ring
    have hdiv0 : 0 ≤ 100 * e / b.capacidade := by positivity
    have hdiv1 : 100 * e / b.capacidade ≤ b.soc_max - b.soc := by
      have hkey : 100 / b.capacidade * ((b.soc_max - b.soc) / 100 * b.capacidade) =
          b.soc_max - b.soc := by
        field_simp
        ring
      have hmul := mul_le_mul_of_nonneg_left hle (by positivity : (0:ℚ) ≤ 100 / b.capacidade)
      rw [hkey] at hmul
      calc 100 * e / b.capacidade = 100 / b.capacidade * e := by ring
        _ ≤ b.soc_max - b.soc := hmul
    dsimp only
    obtain ⟨k0, k1, k2, k3, k4, k5, k6⟩ := acumula_ciclos_carregamento_passo
      { b with soc := (b.soc / 100 * b.capacidade + e) / b.capacidade * 100 } e soma
      he hec ha0 ha1 harel
    refine ⟨⟨?_, ?_, k0, ?_, ?_⟩, k3, k5, k6⟩
    · rw [k4]
      show (0 : ℚ) ≤ (b.soc / 100 * b.capacidade + e) / b.capacidade * 100
      rw [hsoc']
      linarith
    · rw [k4, k6]
      show (b.soc / 100 * b.capacidade + e) / b.capacidade * 100 ≤ b.soc_max
      rw [hsoc']
      linarith
    · rw [k3]
      exact k1
    · rw [k3]
      exact k2

/-- One `descarrega_bateria` call preserves the cycle-counting invariant and
leaves the cycle counter and accumulator untouched. -/
theorem descarrega_bateria_passo (b : bateria) (e soma : ℚ)
    (hcap : 0 < b.capacidade) (hmin : 0 ≤ b.soc_min) (hmm : b.soc_min ≤ b.soc_max)
    (he : 0 ≤ e) (hinv : b.invariante_ciclos soma) :
    (b.descarrega_bateria e).1.invariante_ciclos soma ∧
    (b.descarrega_bateria e).1.capacidade = b.capacidade ∧
    (b.descarrega_bateria e).1.soc_min = b.soc_min ∧
    (b.descarrega_bateria e).1.soc_max = b.soc_max := by
  obtain ⟨hs0, hs1, ha0, ha1, harel⟩ := hinv
  simp only [bateria.descarrega_bateria, np_max_axis0]
  split
  case isTrue h =>
    exact ⟨⟨hmin, hmm, ha0, ha1, harel⟩, rfl, rfl, rfl⟩
  case isFalse h =>
    have hle : e ≤ (b.soc - b.soc_min) / 100 * b.capacidade := by linarith
    have hsoc' : (b.soc / 100 * b.capacidade - e) / b.capacidade * 100 =
        b.soc - 100 * e / b.capacidade := by
      field_simp
      ring
    have hdiv0 : 0 ≤ 100 * e / b.capacidade := by positivity
    have hdiv1 : 100 * e / b.capacidade ≤ b.soc - b.soc_min := by
      have hkey : 100 / b.capacidade * ((b.soc - b.soc_min) / 100 * b.capacidade) =
          b.soc - b.soc_min := by
        field_simp
        ring
      have hmul := mul_le_mul_of_nonneg_left hle (by positivity : (0:ℚ) ≤ 100 / b.capacidade)
      rw [hkey] at hmul
      calc 100 * e / b.capacidade = 100 / b.capacidade * e := by ring
        _ ≤ b.soc - b.soc_min := hmul
    dsimp only
    refine ⟨⟨?_, ?_, ha0, ha1, harel⟩, rfl, rfl, rfl⟩
    · show (0 : ℚ) ≤ (b.soc / 100 * b.capacidade - e) / b.capacidade * 100
      rw [hsoc']
      linarith
    · show (b.soc / 100 * b.capacidade - e) / b.capacidade * 100 ≤ b.soc_max
      rw [hsoc']
      linarith

/-- Running any sequence of non-negative charge/discharge requests preserves
the cycle-counting invariant, the cumulative stored energy advancing by the
run's total stored amount. -/
theorem executa_invariante (ops : List OperacaoBateria) :
    ∀ (b : bateria) (soma : ℚ),
    0 < b.capacidade → 0 ≤ b.soc_min → b.soc_min ≤ b.soc_max → b.soc_max ≤ 100 →
    (∀ op ∈ ops, op.nao_negativa) → b.invariante_ciclos soma →
    (b.executa ops).1.invariante_ciclos (soma + (b.executa ops).2) ∧
    (b.executa ops).1.capacidade = b.capacidade := by
  induction ops with
  | nil =>
    intro b soma _ _ _ _ _ hinv
    exact ⟨by simpa [bateria.executa] using hinv, rfl⟩
  | cons op ops ih =>
    intro b soma hcap hmin hmm hmax hops hinv
    have hop : op.nao_negativa := hops op (List.mem_cons_self op ops)
    have hops' : ∀ o ∈ ops, o.nao_negativa := fun o ho => hops o (List.mem_cons_of_mem op ho)
    cases op with
    | carrega e =>
      obtain ⟨hinv', hc, hm, hM⟩ := carrega_bateria_passo b e soma hcap hmax hop hinv
      have hrec := ih (b.carrega_bateria e).1 (soma + (b.carrega_bateria e).2)
        (hc ▸ hcap) (hm ▸ hmin) (by rw [hm, hM]; exact hmm) (hM ▸ hmax) hops' hinv'
      rw [bateria.executa]
      dsimp only
      refine ⟨?_, by rw [hrec.2, hc]⟩
      have h1 := hrec.1
      rw [← add_assoc]
      exact h1
    | descarrega e =>
      obtain ⟨hinv', hc, hm, hM⟩ := descarrega_bateria_passo b e soma hcap hmin hmm hop hinv
      have hrec := ih (b.descarrega_bateria e).1 soma
        (hc ▸ hcap) (hm ▸ hmin) (by rw [hm, hM]; exact hmm) (hM ▸ hmax) hops' hinv'
      rw [bateria.executa]
      exact ⟨hrec.1, by rw [hrec.2, hc]⟩

/-- C9 (amended): starting from a freshly constructed legacy battery, for a
valid configuration (`0 < capacidade`, `0 <= soc_min <= soc_max <= 100`) and
any finite sequence of charge/discharge calls with non-negative requested
energies, `num_ciclos` equals `floor(S / capacidade)` where `S` is the sum
of the stored amounts returned by the `carrega_bateria` calls, and the
internal charge accumulator stays in `[0, capacidade)`. -/
theorem C9_ciclos_carregamento (capacidade soc_min soc_max : ℚ)
    (ops : List OperacaoBateria)
    (hcap : 0 < capacidade) (hmin : 0 ≤ soc_min) (hmm : soc_min ≤ soc_max)
    (hmax : soc_max ≤ 100) (hops : ∀ op ∈ ops, op.nao_negativa) :
    ((bateria.nova capacidade soc_min soc_max).executa ops).1.num_ciclos =
      Int.floor (((bateria.nova capacidade soc_min soc_max).executa ops).2 / capacidade) ∧
    0 ≤ ((bateria.nova capacidade soc_min soc_max).executa ops).1.acumulado_carregamento ∧
    ((bateria.nova capacidade soc_min soc_max).executa ops).1.acumulado_carregamento <
      capacidade := by
  have hinv0 : (bateria.nova capacidade soc_min soc_max).invariante_ciclos 0 := by
    refine ⟨le_rfl, show (0:ℚ) ≤ soc_max from by linarith, le_rfl, hcap,
      show (0:ℚ) = 0 - ((0:ℤ) : ℚ) * capacidade from by norm_num⟩
  obtain ⟨hinv, hcapeq⟩ := executa_invariante ops (bateria.nova capacidade soc_min soc_max) 0
    hcap hmin hmm hmax hops hinv0
  obtain ⟨_, _, ha0, ha1, harel⟩ := hinv
  have hnovacap : (bateria.nova capacidade soc_min soc_max).capacidade = capacidade := rfl
  rw [hcapeq, hnovacap] at ha1 harel
  rw [zero_add] at harel
  refine ⟨?_, ha0, ha1⟩
  set n := ((bateria.nova capacidade soc_min soc_max).executa ops).1.num_ciclos with hn
  set S := ((bateria.nova capacidade soc_min soc_max).executa ops).2 with hS
  set ac := ((bateria.nova capacidade soc_min soc_max).executa ops).1.acumulado_carregamento
    with hac
  have hdiv : S / capacidade = (n : ℚ) + ac / capacidade := by
    have : S = (n : ℚ) * capacidade + ac := by linarith
    rw [this, add_div, mul_div_cancel_right₀ _ hcap.ne']
  symm
  rw [Int.floor_eq_iff]
  constructor
  · rw [hdiv]
    have : 0 ≤ ac / capacidade := div_nonneg ha0 hcap.le
    linarith
  · rw [hdiv]
    have : ac / capacidade < 1 := (div_lt_one hcap).mpr ha1
    linarith

/-- Witness for C9: a 1 kWh battery between 20 % and 80 %, charged 0.6 kWh,
discharged 0.3 kWh, then asked to charge 0.9 kWh (clamped to 0.5 kWh). -/
theorem C9_ciclos_carregamento_witness :
    ((bateria.nova 1 20 80).executa [OperacaoBateria.carrega (3/5),
        OperacaoBateria.descarrega (3/10), OperacaoBateria.carrega (9/10)]).1.num_ciclos =
      Int.floor (((bateria.nova 1 20 80).executa [OperacaoBateria.carrega (3/5),
        OperacaoBateria.descarrega (3/10), OperacaoBateria.carrega (9/10)]).2 / 1) ∧
    0 ≤ ((bateria.nova 1 20 80).executa [OperacaoBateria.carrega (3/5),
      OperacaoBateria.descarrega (3/10),
      OperacaoBateria.carrega (9/10)]).1.acumulado_carregamento ∧
    ((bateria.nova 1 20 80).executa [OperacaoBateria.carrega (3/5),
      OperacaoBateria.descarrega (3/10),
      OperacaoBateria.carrega (9/10)]).1.acumulado_carregamento < 1 :=
  C9_ciclos_carregamento 1 20 80
    [OperacaoBateria.carrega (3/5), OperacaoBateria.descarrega (3/10),
      OperacaoBateria.carrega (9/10)]
    (by norm_num) (by norm_num) (by norm_num) (by norm_num)
    (by
      intro op hop
      fin_cases hop <;> norm_num [OperacaoBateria.nao_negativa])

/-- C10 (counterexample): a profile with a single entry at 23:30 queried
from 23:00 for two hours — a window crossing midnight — returns 0, while
the sum over the queried window is 1. -/
theorem C10_extraccao_counterexample :
    PerfilExtraccao.extraccao_aqs_intervalo ⟨[(1410, 1)]⟩ 1380 2 = 0 ∧
    PerfilExtraccao.soma_janela ⟨[(1410, 1)]⟩ 1380 2 = 1 := by
  constructor <;>
    norm_num [PerfilExtraccao.extraccao_aqs_intervalo, PerfilExtraccao.soma_janela]

/-- C10 (amended): for every window that stays strictly inside one day
(start time-of-day plus duration strictly before midnight) and a profile
table indexed by valid times of day, `extraccao_aqs_intervalo` returns the
sum of the profile's draw values over the queried window. -/
theorem C10_extraccao_janela (p : PerfilExtraccao) (timestamp_inicio duracao : ℕ)
    (hd : 0 < duracao)
    (hdia : timestamp_inicio % 1440 + duracao * 60 < 1440)
    (hvalida : ∀ e ∈ p.perfis, e.1 < 1440) :
    p.extraccao_aqs_intervalo timestamp_inicio duracao =
      p.soma_janela timestamp_inicio duracao := by
  simp only [PerfilExtraccao.extraccao_aqs_intervalo, PerfilExtraccao.soma_janela]
  have hfil : (p.perfis.filter fun e => decide (timestamp_inicio % 1440 ≤ e.1) &&
      decide (e.1 < (timestamp_inicio + duracao * 60) % 1440)) =
      p.perfis.filter fun e =>
        decide ((e.1 + 1440 - timestamp_inicio % 1440) % 1440 < duracao * 60) := by
    apply List.filter_congr
    intro e he
    have h1 : e.1 < 1440 := hvalida e he
    rw [← Bool.decide_and]
    exact decide_eq_decide.mpr (by omega)
  rw [hfil]

/-- Witness for C10: a profile with one entry at 00:30 queried from midnight
for one hour. -/
theorem C10_extraccao_janela_witness :
    PerfilExtraccao.extraccao_aqs_intervalo ⟨[(30, 2)]⟩ 0 1 =
      PerfilExtraccao.soma_janela ⟨[(30, 2)]⟩ 0 1 :=
  C10_extraccao_janela ⟨[(30, 2)]⟩ 0 1 (by norm_num) (by norm_num)
    (by
      intro e he
      simp only [List.mem_singleton] at he
      rw [he]
      norm_num)

end AoSol
